import Mathlib

set_option autoImplicit false

/-!
Shallow embedding of `amocrm_connector.py`: a minimal amoCRM API client with
automatic OAuth2 token refresh.  JSON values are modelled by the inductive
`JVal`; Python exceptions by `PyError` (carrying the exception class name and
message); time by an explicit `now : Int` parameter standing for `time()`.
Stateful methods return the (possibly updated) connector explicitly, together
with the trace of calls made on the HTTP session object, so that call counts
and call arguments are observable.
-/

/-- JSON-like Python values (dicts as association lists with unique keys). -/
inductive JVal where
  | null : JVal
  | bool (b : Bool) : JVal
  | num (n : Int) : JVal
  | str (s : String) : JVal
  | arr (xs : List JVal) : JVal
  | obj (fields : List (String × JVal)) : JVal
  deriving Repr

/-- A raised Python exception: class name and message. -/
structure PyError where
  kind : String
  msg : String
  deriving Repr, DecidableEq

/-- First-match lookup in a dict's field list. -/
def lookupField : List (String × JVal) → String → Option JVal
  | [], _ => none
  | (k, v) :: rest, key => if k == key then some v else lookupField rest key

/-- Python truthiness on `JVal` (`if not contacts`, `payload or ...`). -/
def JVal.isFalsy : JVal → Bool
  | .null => true
  | .bool b => !b
  | .num n => n == 0
  | .str s => s.isEmpty
  | .arr xs => xs.isEmpty
  | .obj fs => fs.isEmpty

/-- Python `str()` coercion as used in f-strings.  Containers get a
placeholder: no code path relevant to a claim stringifies one. -/
def JVal.pyStr : JVal → String
  | .null => "None"
  | .bool b => if b then "True" else "False"
  | .num n => toString n
  | .str s => s
  | .arr _ => "<list>"
  | .obj _ => "<dict>"

/-- Python `d[k]` on a JSON value: `KeyError` when absent, `TypeError` when
the receiver is not a dict. -/
def JVal.getItem (j : JVal) (k : String) : Except PyError JVal :=
  match j with
  | .obj fs =>
    match lookupField fs k with
    | some v => .ok v
    | none => .error { kind := "KeyError", msg := k }
  | _ => .error { kind := "TypeError", msg := "object is not subscriptable" }

/-- Python `d.get(k, default)`: `AttributeError` when the receiver is not a
dict (no `get` attribute). -/
def JVal.dictGet (j : JVal) (k : String) (d : JVal) : Except PyError JVal :=
  match j with
  | .obj fs => .ok ((lookupField fs k).getD d)
  | _ => .error { kind := "AttributeError", msg := "object has no attribute get" }

/-- Python `xs[0]`. -/
def JVal.pyIndexZero : JVal → Except PyError JVal
  | .arr [] => .error { kind := "IndexError", msg := "list index out of range" }
  | .arr (x :: _) => .ok x
  | .str s =>
    if s.isEmpty then .error { kind := "IndexError", msg := "string index out of range" }
    else .ok (.str (String.singleton s.front))
  | .obj _ => .error { kind := "KeyError", msg := "0" }
  | _ => .error { kind := "TypeError", msg := "object is not subscriptable" }

/-- `class AmoCRMToken` (`expires_at` modelled as integer seconds). -/
structure AmoCRMToken where
  access_token : String
  refresh_token : String
  expires_at : Int
  deriving Repr, DecidableEq

/-- `AmoCRMToken.is_expired`: `time() >= self.expires_at - 30`. -/
def AmoCRMToken.is_expired (t : AmoCRMToken) (now : Int) : Bool :=
  now ≥ t.expires_at - 30

/-- `class Response`. -/
structure Response where
  status_code : Nat
  payload : Option JVal
  text : String
  deriving Repr

/-- `Response.json`: `self._payload or {}`. -/
def Response.json (r : Response) : JVal :=
  match r.payload with
  | none => .obj []
  | some p => if p.isFalsy then .obj [] else p

/-- What the wire (urlopen) did for one HTTP exchange.  In `success`,
`parsed` stands for `json.loads` of `text` (the parse itself is not
modelled). -/
inductive WireOutcome where
  | success (status : Nat) (text : String) (parsed : JVal) : WireOutcome
  | httpError (code : Nat) (text : String) : WireOutcome
  | connFailure (cause : String) : WireOutcome
  deriving Repr

/-- `SimpleHTTPSession.request` query-string building: `if params:` then
join `k=v` with `&` after a literal `?`. -/
def buildUrlWithParams (url : String) (params : Option (List (String × JVal))) : String :=
  match params with
  | none => url
  | some [] => url
  | some ps => url ++ "?" ++ String.intercalate "&" (ps.map (fun p => p.1 ++ "=" ++ p.2.pyStr))

/-- `SimpleHTTPSession.request`: maps the wire outcome to a `Response`, or
raises `AmoCRMError("Network error: ...")` on `URLError`. -/
def SimpleHTTPSession.request (method url : String) (headers : List (String × String))
    (json : Option JVal) (params : Option (List (String × JVal))) (timeout : Nat)
    (wire : WireOutcome) : Except PyError Response :=
  let _ := buildUrlWithParams url params
  let _ := (method, headers, json, timeout)
  match wire with
  | .success status text parsed =>
    .ok { status_code := status
        , payload := some (if text.isEmpty then .obj [] else parsed)
        , text := text }
  | .httpError code text =>
    .ok { status_code := code, payload := none, text := text }
  | .connFailure cause =>
    .error { kind := "AmoCRMError", msg := "Network error: " ++ cause }

/-- `SimpleHTTPSession.post`. -/
def SimpleHTTPSession.post (url : String) (j : JVal) (timeout : Nat)
    (wire : WireOutcome) : Except PyError Response :=
  SimpleHTTPSession.request "POST" url [("Content-Type", "application/json")]
    (some j) none timeout wire

/-- `class AmoCRMConnector`: configuration, held token, and the session
object (only its identity is modelled; responses it yields are passed to the
operations explicitly, as the unit tests do with mocks). -/
structure AmoCRMConnector where
  base_url : String
  token_url : String
  client_id : String
  client_secret : String
  redirect_uri : String
  token : AmoCRMToken
  session : String
  deriving Repr

/-- `AmoCRMConnector.__init__`. -/
def AmoCRMConnector.init (base_domain client_id client_secret redirect_uri : String)
    (token : AmoCRMToken) (session : String) : AmoCRMConnector :=
  { base_url := "https://" ++ base_domain ++ ".amocrm.ru/api/v4"
  , token_url := "https://" ++ base_domain ++ ".amocrm.ru/oauth2/access_token"
  , client_id := client_id
  , client_secret := client_secret
  , redirect_uri := redirect_uri
  , token := token
  , session := session }

/-- A call observed on the session object (what the unit tests assert on). -/
inductive SessionCall where
  | post (url : String) (body : JVal) (timeout : Nat) : SessionCall
  | request (method : String) (url : String) (headers : List (String × String))
      (json : Option JVal) (params : Option (List (String × JVal))) (timeout : Nat) : SessionCall
  deriving Repr

def SessionCall.isPost : SessionCall → Bool
  | .post _ _ _ => true
  | .request _ _ _ _ _ _ => false

def SessionCall.isRequest : SessionCall → Bool
  | .post _ _ _ => false
  | .request _ _ _ _ _ _ => true

/-- The grant body posted by `refresh_access_token`. -/
def refreshRequestBody (c : AmoCRMConnector) : JVal :=
  .obj [ ("client_id", .str c.client_id)
       , ("client_secret", .str c.client_secret)
       , ("grant_type", .str "refresh_token")
       , ("refresh_token", .str c.token.refresh_token)
       , ("redirect_uri", .str c.redirect_uri) ]

/-- `AmoCRMConnector.refresh_access_token`, with `resp` the response the
session's `post` returned and `now` the value of `time()`.  Returns the
outcome and the connector state after the call (unchanged on any raised
exception, since `self.token` is assigned only on the success path).
JSON payload values stored into the token's string fields go through
`pyStr`, the coercion the f-string header construction applies. -/
def AmoCRMConnector.refresh_access_token (c : AmoCRMConnector) (now : Int)
    (resp : Response) : Except PyError Unit × AmoCRMConnector :=
  if resp.status_code ≠ 200 then
    (.error { kind := "AmoCRMError"
            , msg := "Failed to refresh token: " ++ toString resp.status_code ++ " " ++ resp.text }, c)
  else
    let payload := resp.json
    match payload.getItem "access_token" with
    | .error e => (.error e, c)
    | .ok atv =>
      match payload.dictGet "refresh_token" (.str c.token.refresh_token) with
      | .error e => (.error e, c)
      | .ok rtv =>
        match payload.dictGet "expires_in" (.num 900) with
        | .error e => (.error e, c)
        | .ok eiv =>
          match eiv with
          | .num ei =>
            (.ok (), { c with token := { access_token := atv.pyStr
                                       , refresh_token := rtv.pyStr
                                       , expires_at := now + ei } })
          | _ => (.error { kind := "TypeError", msg := "unsupported operand" }, c)

/-- The keyword arguments `_request` receives from the two endpoints. -/
structure RequestKwargs where
  headers : List (String × String)
  json : Option JVal
  params : Option (List (String × JVal))

/-- Python dict assignment `m[k] = v`: replace in place when the key exists,
append otherwise. -/
def setHeader : List (String × String) → String → String → List (String × String)
  | [], k, v => [(k, v)]
  | (k1, v1) :: rest, k, v =>
    if k1 = k then (k, v) :: rest else (k1, v1) :: setHeader rest k v

/-- `AmoCRMConnector._request`.  `refreshResp` is what the session's `post`
would return for the token endpoint (consulted only when the token is
expired); `apiResp` is what the session's `request` returns for the resource
call.  Yields the outcome, the connector state after the call, and the trace
of session calls. -/
def AmoCRMConnector.request_ (c : AmoCRMConnector) (now : Int) (method path : String)
    (kwargs : RequestKwargs) (refreshResp apiResp : Response) :
    Except PyError JVal × AmoCRMConnector × List SessionCall :=
  let step1 : Except PyError Unit × AmoCRMConnector × List SessionCall :=
    if c.token.is_expired now then
      let r := c.refresh_access_token now refreshResp
      (r.1, r.2, [SessionCall.post c.token_url (refreshRequestBody c) 10])
    else (.ok (), c, [])
  match step1 with
  | (.error e, c1, tr) => (.error e, c1, tr)
  | (.ok _, c1, tr) =>
    let headers :=
      setHeader (setHeader kwargs.headers "Authorization" ("Bearer " ++ c1.token.access_token))
        "Content-Type" "application/json"
    let tr2 := tr ++ [SessionCall.request method (c1.base_url ++ path) headers
      kwargs.json kwargs.params 10]
    if apiResp.status_code ≥ 400 then
      (.error { kind := "AmoCRMError"
              , msg := "amoCRM API error: " ++ toString apiResp.status_code ++ " " ++ apiResp.text }, c1, tr2)
    else if apiResp.status_code == 204 then
      (.ok (.obj []), c1, tr2)
    else
      (.ok apiResp.json, c1, tr2)

/-- `AmoCRMConnector.get_leads`. -/
def AmoCRMConnector.get_leads (c : AmoCRMConnector) (now : Int)
    (refreshResp apiResp : Response) (limit page : Int) :
    Except PyError JVal × AmoCRMConnector × List SessionCall :=
  match c.request_ now "GET" "/leads"
      { headers := [], json := none
      , params := some [("limit", .num limit), ("page", .num page)] } refreshResp apiResp with
  | (.error e, c1, tr) => (.error e, c1, tr)
  | (.ok data, c1, tr) =>
    match data.dictGet "_embedded" (.obj []) with
    | .error e => (.error e, c1, tr)
    | .ok emb =>
      match emb.dictGet "leads" (.arr []) with
      | .error e => (.error e, c1, tr)
      | .ok leads => (.ok leads, c1, tr)

/-- `AmoCRMConnector.create_contact`. -/
def AmoCRMConnector.create_contact (c : AmoCRMConnector) (now : Int)
    (refreshResp apiResp : Response) (name : String) :
    Except PyError JVal × AmoCRMConnector × List SessionCall :=
  match c.request_ now "POST" "/contacts"
      { headers := [], json := some (.arr [.obj [("name", .str name)]])
      , params := none } refreshResp apiResp with
  | (.error e, c1, tr) => (.error e, c1, tr)
  | (.ok data, c1, tr) =>
    match data.dictGet "_embedded" (.obj []) with
    | .error e => (.error e, c1, tr)
    | .ok emb =>
      match emb.dictGet "contacts" (.arr []) with
      | .error e => (.error e, c1, tr)
      | .ok contacts =>
        if contacts.isFalsy then
          (.error { kind := "AmoCRMError", msg := "Contact creation returned empty payload" }, c1, tr)
        else
          match contacts.pyIndexZero with
          | .error e => (.error e, c1, tr)
          | .ok x => (.ok x, c1, tr)

/-! ### Concrete fixtures (mirroring the unit tests) -/

/-- The token the unit tests build: valid until `expires_at = 3600`. -/
def tokenEx : AmoCRMToken :=
  { access_token := "old_token", refresh_token := "refresh_token", expires_at := 3600 }

/-- The connector the unit tests build. -/
def connectorEx : AmoCRMConnector :=
  AmoCRMConnector.init "example" "client" "secret" "https://example.com/callback" tokenEx "s0"

/-- A 200 token-endpoint response carrying a fresh token pair. -/
def respRefresh200 : Response :=
  { status_code := 200
  , payload := some (.obj [ ("access_token", .str "new_access")
                          , ("refresh_token", .str "new_refresh")
                          , ("expires_in", .num 1800) ])
  , text := "tok" }

/-- A 200 `/leads` response with one embedded lead. -/
def respLeads200 : Response :=
  { status_code := 200
  , payload := some (.obj [("_embedded",
      .obj [("leads", .arr [.obj [("id", .num 1), ("name", .str "Lead #1")]])])])
  , text := "leads" }

/-! ### Helper lemmas -/

theorem getItem_error_kind (j : JVal) (k : String) (e : PyError)
    (h : j.getItem k = .error e) : e.kind = "KeyError" ∨ e.kind = "TypeError" := by
  cases j with
  | obj fs =>
    rcases hl : lookupField fs k with _ | v
    · left
      simp only [JVal.getItem, hl] at h
      injection h with h'
      rw [← h']
    · simp [JVal.getItem, hl] at h
  | null => right; simp only [JVal.getItem] at h; injection h with h'; rw [← h']
  | bool b => right; simp only [JVal.getItem] at h; injection h with h'; rw [← h']
  | num n => right; simp only [JVal.getItem] at h; injection h with h'; rw [← h']
  | str s => right; simp only [JVal.getItem] at h; injection h with h'; rw [← h']
  | arr xs => right; simp only [JVal.getItem] at h; injection h with h'; rw [← h']

theorem dictGet_error_kind (j : JVal) (k : String) (d : JVal) (e : PyError)
    (h : j.dictGet k d = .error e) : e.kind = "AttributeError" := by
  cases j <;> simp only [JVal.dictGet] at h <;> first
    | (injection h with h'; rw [← h'])
    | exact absurd h (by simp)

/-- Every path through `refresh_access_token` leaves the connector equal to
`c` with at most the token replaced. -/
theorem refresh_state (c : AmoCRMConnector) (now : Int) (resp : Response) :
    ∃ t, (c.refresh_access_token now resp).2 = { c with token := t } := by
  simp only [AmoCRMConnector.refresh_access_token]
  split
  · exact ⟨c.token, rfl⟩
  · split
    · exact ⟨c.token, rfl⟩
    · split
      · exact ⟨c.token, rfl⟩
      · split
        · exact ⟨c.token, rfl⟩
        · split
          · exact ⟨_, rfl⟩
          · exact ⟨c.token, rfl⟩

/-- All configuration fields of `c'` agree with those of `c`. -/
def configUnchanged (c' c : AmoCRMConnector) : Prop :=
  c'.base_url = c.base_url ∧ c'.token_url = c.token_url ∧ c'.client_id = c.client_id ∧
  c'.client_secret = c.client_secret ∧ c'.redirect_uri = c.redirect_uri ∧
  c'.session = c.session

theorem refresh_config (c : AmoCRMConnector) (now : Int) (resp : Response) :
    configUnchanged (c.refresh_access_token now resp).2 c := by
  obtain ⟨t, ht⟩ := refresh_state c now resp
  rw [configUnchanged, ht]
  exact ⟨rfl, rfl, rfl, rfl, rfl, rfl⟩

/-! ### Claim theorems, first batch -/

/-- C2: `is_expired` is true iff the current time is at least `expires_at - 30`;
the boundary instant `expires_at - 30` itself counts as expired. -/
theorem token_is_expired_iff_margin (t : AmoCRMToken) (now : Int) :
    (t.is_expired now = true ↔ now ≥ t.expires_at - 30) ∧
    t.is_expired (t.expires_at - 30) = true := by
  refine ⟨?_, ?_⟩ <;> simp [AmoCRMToken.is_expired]

/-- C10: when the token-endpoint response status is not 200, `refresh_access_token`
raises `AmoCRMError` with the status and body text, and the connector — in
particular the held token — is left exactly as it was. -/
theorem refresh_fail_preserves_token (c : AmoCRMConnector) (now : Int) (resp : Response)
    (h : resp.status_code ≠ 200) :
    c.refresh_access_token now resp =
      (.error { kind := "AmoCRMError"
              , msg := "Failed to refresh token: " ++ toString resp.status_code ++ " " ++ resp.text }, c) := by
  simp [AmoCRMConnector.refresh_access_token, h]

/-- Witness for C10 at a concrete 500 response. -/
theorem refresh_fail_preserves_token_witness :
    (500 : Nat) ≠ 200 ∧
    connectorEx.refresh_access_token 1000 { status_code := 500, payload := none, text := "boom" } =
      (.error { kind := "AmoCRMError", msg := "Failed to refresh token: 500 boom" }, connectorEx) :=
  ⟨by decide, refresh_fail_preserves_token connectorEx 1000
    { status_code := 500, payload := none, text := "boom" } (by decide)⟩

/-- C5 counterexample: in the code a connection-level failure raises the very
same exception class `AmoCRMError` that API/token failures raise — the error
kind is not distinct from `CRMError`; both raised errors carry kind
`AmoCRMError`. -/
theorem network_error_not_distinct_kind_cex :
    (SimpleHTTPSession.request "GET" "https://example.amocrm.ru/api/v4/leads" [] none none 10
        (.connFailure "timeout") =
      .error { kind := "AmoCRMError", msg := "Network error: timeout" }) ∧
    ((connectorEx.refresh_access_token 0 { status_code := 500, payload := none, text := "boom" }).1 =
      .error { kind := "AmoCRMError", msg := "Failed to refresh token: 500 boom" }) := by
  exact ⟨rfl, rfl⟩

/-- C5 amended: on a connection-level failure the transport raises an error
(never returns a `Response`) wrapping the cause with message
`Network error: <cause>`; the error class is the single `AmoCRMError` class,
the same one used for bad API responses. -/
theorem network_failure_raises_error_not_response (method url : String)
    (hs : List (String × String)) (j : Option JVal) (ps : Option (List (String × JVal)))
    (t : Nat) (cause : String) :
    SimpleHTTPSession.request method url hs j ps t (.connFailure cause) =
      .error { kind := "AmoCRMError", msg := "Network error: " ++ cause } := rfl

/-- Fully evaluated `_request` when the token is not expired and the resource
response status is acceptable and not 204. -/
theorem request_ok_not_expired (c : AmoCRMConnector) (now : Int) (method path : String)
    (kw : RequestKwargs) (rR aR : Response) (h : c.token.is_expired now = false)
    (h400 : aR.status_code < 400) (h204 : aR.status_code ≠ 204) :
    c.request_ now method path kw rR aR =
      (.ok aR.json, c,
       [SessionCall.request method (c.base_url ++ path)
         (setHeader (setHeader kw.headers "Authorization" ("Bearer " ++ c.token.access_token))
           "Content-Type" "application/json") kw.json kw.params 10]) := by
  simp [AmoCRMConnector.request_, h, Nat.not_le.mpr h400, h204]

/-- `_request` when the token is not expired and the resource status is ≥ 400. -/
theorem request_err_not_expired (c : AmoCRMConnector) (now : Int) (method path : String)
    (kw : RequestKwargs) (rR aR : Response) (h : c.token.is_expired now = false)
    (h400 : aR.status_code ≥ 400) :
    c.request_ now method path kw rR aR =
      (.error { kind := "AmoCRMError"
              , msg := "amoCRM API error: " ++ toString aR.status_code ++ " " ++ aR.text }, c,
       [SessionCall.request method (c.base_url ++ path)
         (setHeader (setHeader kw.headers "Authorization" ("Bearer " ++ c.token.access_token))
           "Content-Type" "application/json") kw.json kw.params 10]) := by
  simp [AmoCRMConnector.request_, h, h400]

/-- `_request` when the token is not expired and the resource status is 204. -/
theorem request_204_not_expired (c : AmoCRMConnector) (now : Int) (method path : String)
    (kw : RequestKwargs) (rR aR : Response) (h : c.token.is_expired now = false)
    (h204 : aR.status_code = 204) :
    c.request_ now method path kw rR aR =
      (.ok (.obj []), c,
       [SessionCall.request method (c.base_url ++ path)
         (setHeader (setHeader kw.headers "Authorization" ("Bearer " ++ c.token.access_token))
           "Content-Type" "application/json") kw.json kw.params 10]) := by
  simp [AmoCRMConnector.request_, h, h204]

/-- `_request` when the token is expired and the refresh raised. -/
theorem request_expired_refresh_err (c : AmoCRMConnector) (now : Int) (method path : String)
    (kw : RequestKwargs) (rR aR : Response) (e : PyError) (h : c.token.is_expired now = true)
    (herr : (c.refresh_access_token now rR).1 = .error e) :
    c.request_ now method path kw rR aR =
      (.error e, (c.refresh_access_token now rR).2,
       [SessionCall.post c.token_url (refreshRequestBody c) 10]) := by
  rcases hr : c.refresh_access_token now rR with ⟨r1, c2⟩
  rw [hr] at herr
  simp only at herr
  simp [AmoCRMConnector.request_, h, hr, herr]

/-- `_request` when the token is expired and the refresh succeeded. -/
theorem request_expired_refresh_ok (c : AmoCRMConnector) (now : Int) (method path : String)
    (kw : RequestKwargs) (rR aR : Response) (h : c.token.is_expired now = true)
    (hok : (c.refresh_access_token now rR).1 = .ok ()) :
    c.request_ now method path kw rR aR =
      (let c1 := (c.refresh_access_token now rR).2
       let tr2 := [SessionCall.post c.token_url (refreshRequestBody c) 10,
         SessionCall.request method (c1.base_url ++ path)
           (setHeader (setHeader kw.headers "Authorization" ("Bearer " ++ c1.token.access_token))
             "Content-Type" "application/json") kw.json kw.params 10]
       if aR.status_code ≥ 400 then
         (.error { kind := "AmoCRMError"
                 , msg := "amoCRM API error: " ++ toString aR.status_code ++ " " ++ aR.text }, c1, tr2)
       else if aR.status_code == 204 then
         (.ok (.obj []), c1, tr2)
       else
         (.ok aR.json, c1, tr2)) := by
  rcases hr : c.refresh_access_token now rR with ⟨r1, c2⟩
  rw [hr] at hok
  simp only at hok
  simp [AmoCRMConnector.request_, h, hr, hok]

/-- `get_leads` returns the connector state `_request` produced. -/
theorem get_leads_state (c : AmoCRMConnector) (now : Int) (rR aR : Response)
    (limit page : Int) :
    (c.get_leads now rR aR limit page).2.1 =
      (c.request_ now "GET" "/leads"
        { headers := [], json := none
        , params := some [("limit", .num limit), ("page", .num page)] } rR aR).2.1 := by
  simp only [AmoCRMConnector.get_leads]
  split <;> rename_i heq <;> rw [heq]
  split
  · rfl
  · split <;> rfl

/-- `get_leads` leaves the session-call trace of `_request` untouched. -/
theorem get_leads_trace (c : AmoCRMConnector) (now : Int) (rR aR : Response)
    (limit page : Int) :
    (c.get_leads now rR aR limit page).2.2 =
      (c.request_ now "GET" "/leads"
        { headers := [], json := none
        , params := some [("limit", .num limit), ("page", .num page)] } rR aR).2.2 := by
  simp only [AmoCRMConnector.get_leads]
  split <;> rename_i heq <;> rw [heq]
  split
  · rfl
  · split <;> rfl

/-- `create_contact` returns the connector state `_request` produced. -/
theorem create_contact_state (c : AmoCRMConnector) (now : Int) (rR aR : Response)
    (name : String) :
    (c.create_contact now rR aR name).2.1 =
      (c.request_ now "POST" "/contacts"
        { headers := [], json := some (.arr [.obj [("name", .str name)]])
        , params := none } rR aR).2.1 := by
  simp only [AmoCRMConnector.create_contact]
  split <;> rename_i heq <;> rw [heq]
  split
  · rfl
  · split
    · rfl
    · split
      · rfl
      · split <;> rfl

/-- `create_contact` leaves the session-call trace of `_request` untouched. -/
theorem create_contact_trace (c : AmoCRMConnector) (now : Int) (rR aR : Response)
    (name : String) :
    (c.create_contact now rR aR name).2.2 =
      (c.request_ now "POST" "/contacts"
        { headers := [], json := some (.arr [.obj [("name", .str name)]])
        , params := none } rR aR).2.2 := by
  simp only [AmoCRMConnector.create_contact]
  split <;> rename_i heq <;> rw [heq]
  split
  · rfl
  · split
    · rfl
    · split
      · rfl
      · split <;> rfl

/-- Python dict lookup on the header association list. -/
def hlookup : List (String × String) → String → Option String
  | [], _ => none
  | (k, v) :: rest, key => if k == key then some v else hlookup rest key

/-- Setting a header makes it win any key collision. -/
theorem hlookup_setHeader_same (m : List (String × String)) (k v : String) :
    hlookup (setHeader m k v) k = some v := by
  induction m with
  | nil => simp [setHeader, hlookup]
  | cons a rest ih =>
    rcases a with ⟨k1, v1⟩
    by_cases h1 : k1 = k
    · simp [setHeader, h1, hlookup]
    · simp [setHeader, h1, hlookup, ih]

/-- Setting a header leaves every other key's lookup unchanged. -/
theorem hlookup_setHeader_other (m : List (String × String)) (k v k' : String)
    (h : ¬ k = k') :
    hlookup (setHeader m k v) k' = hlookup m k' := by
  induction m with
  | nil => simp [setHeader, hlookup, h]
  | cons a rest ih =>
    rcases a with ⟨k1, v1⟩
    by_cases h1 : k1 = k
    · subst h1
      simp [setHeader, hlookup, h]
    · simp [setHeader, h1, hlookup, ih]

/-- Trace of `_request` when the token is not expired: a single resource call,
no token-endpoint post. -/
theorem request_trace_not_expired (c : AmoCRMConnector) (now : Int) (method path : String)
    (kw : RequestKwargs) (rR aR : Response) (h : c.token.is_expired now = false) :
    (c.request_ now method path kw rR aR).2.2 =
      [SessionCall.request method (c.base_url ++ path)
        (setHeader (setHeader kw.headers "Authorization" ("Bearer " ++ c.token.access_token))
          "Content-Type" "application/json") kw.json kw.params 10] := by
  simp only [AmoCRMConnector.request_, h, Bool.false_eq_true, if_false]
  split
  · simp
  · split <;> simp

/-- Trace of `_request` when the token is expired and the refresh succeeded:
exactly one token-endpoint post followed by exactly one resource call. -/
theorem request_trace_expired_ok (c : AmoCRMConnector) (now : Int) (method path : String)
    (kw : RequestKwargs) (rR aR : Response) (h : c.token.is_expired now = true)
    (hok : (c.refresh_access_token now rR).1 = .ok ()) :
    (c.request_ now method path kw rR aR).2.2 =
      [SessionCall.post c.token_url (refreshRequestBody c) 10,
       SessionCall.request method ((c.refresh_access_token now rR).2.base_url ++ path)
         (setHeader (setHeader kw.headers "Authorization"
            ("Bearer " ++ (c.refresh_access_token now rR).2.token.access_token))
          "Content-Type" "application/json") kw.json kw.params 10] := by
  rw [request_expired_refresh_ok c now method path kw rR aR h hok]
  dsimp only
  split
  · rfl
  · split <;> rfl

theorem configUnchanged_refl (c : AmoCRMConnector) : configUnchanged c c :=
  ⟨rfl, rfl, rfl, rfl, rfl, rfl⟩

/-- `_request` never changes configuration fields. -/
theorem request_config (c : AmoCRMConnector) (now : Int) (method path : String)
    (kw : RequestKwargs) (rR aR : Response) :
    configUnchanged (c.request_ now method path kw rR aR).2.1 c := by
  by_cases hexp : c.token.is_expired now = true
  · rcases hok : (c.refresh_access_token now rR).1 with e | u
    · rw [request_expired_refresh_err c now method path kw rR aR e hexp hok]
      exact refresh_config c now rR
    · cases u
      rw [request_expired_refresh_ok c now method path kw rR aR hexp hok]
      dsimp only
      have hc := refresh_config c now rR
      split
      · exact hc
      · split
        · exact hc
        · exact hc
  · have hexp' : c.token.is_expired now = false := by simpa using hexp
    simp only [AmoCRMConnector.request_, hexp', Bool.false_eq_true, if_false]
    split
    · exact configUnchanged_refl c
    · split
      · exact configUnchanged_refl c
      · exact configUnchanged_refl c

/-- C9: refreshAccessToken, getLeads and createContact leave the base URL,
token endpoint URL, client id, client secret, redirect URI and session of the
client unchanged; of the client's state only the held token may change. -/
theorem config_immutable_ops (c : AmoCRMConnector) (now : Int) (resp rR aR : Response)
    (limit page : Int) (name : String) :
    configUnchanged (c.refresh_access_token now resp).2 c ∧
    configUnchanged (c.get_leads now rR aR limit page).2.1 c ∧
    configUnchanged (c.create_contact now rR aR name).2.1 c := by
  refine ⟨refresh_config c now resp, ?_, ?_⟩
  · rw [get_leads_state]
    exact request_config c now "GET" "/leads" _ rR aR
  · rw [create_contact_state]
    exact request_config c now "POST" "/contacts" _ rR aR

/-- C1: a token refresh happens iff the held token is expired at entry; when
it is expired and the refresh succeeds, the session sees exactly one
token-endpoint post followed by exactly one resource call (trace mapped
through `isPost` is `[true, false]`); when it is not expired, exactly one
resource call and no post (`[false]`). -/
theorem refresh_iff_expired_single_calls (c : AmoCRMConnector) (now : Int)
    (rR aR : Response) (limit page : Int) (name : String) :
    (c.token.is_expired now = false →
      ((c.get_leads now rR aR limit page).2.2).map SessionCall.isPost = [false] ∧
      ((c.create_contact now rR aR name).2.2).map SessionCall.isPost = [false]) ∧
    (c.token.is_expired now = true → (c.refresh_access_token now rR).1 = .ok () →
      ((c.get_leads now rR aR limit page).2.2).map SessionCall.isPost = [true, false] ∧
      ((c.create_contact now rR aR name).2.2).map SessionCall.isPost = [true, false]) := by
  constructor
  · intro h
    rw [get_leads_trace, create_contact_trace,
      request_trace_not_expired c now "GET" "/leads" _ rR aR h,
      request_trace_not_expired c now "POST" "/contacts" _ rR aR h]
    exact ⟨rfl, rfl⟩
  · intro h hok
    rw [get_leads_trace, create_contact_trace,
      request_trace_expired_ok c now "GET" "/leads" _ rR aR h hok,
      request_trace_expired_ok c now "POST" "/contacts" _ rR aR h hok]
    exact ⟨rfl, rfl⟩

/-- Witness for C1: with the test fixture token (expiry 3600), at time 0 no
refresh happens; at time 10000 the expired token forces exactly one refresh
post then one resource call. -/
theorem refresh_iff_expired_single_calls_witness :
    (tokenEx.is_expired 0 = false ∧
     ((connectorEx.get_leads 0 respRefresh200 respLeads200 10 2).2.2).map SessionCall.isPost = [false] ∧
     ((connectorEx.create_contact 0 respRefresh200 respLeads200 "Jane").2.2).map SessionCall.isPost = [false]) ∧
    (tokenEx.is_expired 10000 = true ∧
     ((connectorEx.get_leads 10000 respRefresh200 respLeads200 50 1).2.2).map SessionCall.isPost = [true, false] ∧
     ((connectorEx.create_contact 10000 respRefresh200 respLeads200 "Jane").2.2).map SessionCall.isPost = [true, false]) := by
  constructor
  · have h := (refresh_iff_expired_single_calls connectorEx 0 respRefresh200 respLeads200 10 2 "Jane").1 rfl
    exact ⟨rfl, h.1, h.2⟩
  · have h := (refresh_iff_expired_single_calls connectorEx 10000 respRefresh200 respLeads200 50 1 "Jane").2 rfl rfl
    exact ⟨rfl, h.1, h.2⟩

/-- C4: once the authentication step has passed (token not expired, or
refresh succeeded), `_request`'s outcome is decided by the resource response
status: ≥ 400 raises `AmoCRMError` with status and body text, 204 yields the
empty mapping, anything else yields the parsed JSON payload. -/
theorem request_status_dispatch (c : AmoCRMConnector) (now : Int) (method path : String)
    (kw : RequestKwargs) (rR aR : Response)
    (hauth : c.token.is_expired now = false ∨ (c.refresh_access_token now rR).1 = .ok ()) :
    (aR.status_code ≥ 400 →
      (c.request_ now method path kw rR aR).1 =
        .error { kind := "AmoCRMError"
               , msg := "amoCRM API error: " ++ toString aR.status_code ++ " " ++ aR.text }) ∧
    (aR.status_code = 204 → (c.request_ now method path kw rR aR).1 = .ok (.obj [])) ∧
    (aR.status_code < 400 → aR.status_code ≠ 204 →
      (c.request_ now method path kw rR aR).1 = .ok aR.json) := by
  by_cases hexp : c.token.is_expired now = true
  · have hok : (c.refresh_access_token now rR).1 = .ok () := by
      rcases hauth with h | h
      · rw [hexp] at h
        exact absurd h (by simp)
      · exact h
    rw [request_expired_refresh_ok c now method path kw rR aR hexp hok]
    dsimp only
    refine ⟨?_, ?_, ?_⟩
    · intro h400
      rw [if_pos h400]
    · intro h204
      rw [if_neg (by omega), if_pos (by simp [h204])]
    · intro h400 h204
      rw [if_neg (by omega), if_neg (by simp [h204])]
  · have hexp' : c.token.is_expired now = false := by simpa using hexp
    refine ⟨?_, ?_, ?_⟩
    · intro h400
      rw [request_err_not_expired c now method path kw rR aR hexp' h400]
    · intro h204
      rw [request_204_not_expired c now method path kw rR aR hexp' h204]
    · intro h400 h204
      rw [request_ok_not_expired c now method path kw rR aR hexp' h400 h204]

/-- A 401 resource response, as in the unit tests. -/
def resp401 : Response := { status_code := 401, payload := none, text := "Unauthorized" }

/-- A 204 no-content resource response. -/
def resp204 : Response := { status_code := 204, payload := none, text := "" }

/-- Witness for C4 at statuses 401, 204 and 200. -/
theorem request_status_dispatch_witness :
    tokenEx.is_expired 0 = false ∧
    (connectorEx.request_ 0 "GET" "/leads" { headers := [], json := none, params := none }
        respRefresh200 resp401).1 =
      .error { kind := "AmoCRMError", msg := "amoCRM API error: 401 Unauthorized" } ∧
    (connectorEx.request_ 0 "GET" "/leads" { headers := [], json := none, params := none }
        respRefresh200 resp204).1 = .ok (.obj []) ∧
    (connectorEx.request_ 0 "GET" "/leads" { headers := [], json := none, params := none }
        respRefresh200 respLeads200).1 = .ok respLeads200.json := by
  refine ⟨rfl, ?_, ?_, ?_⟩
  · exact (request_status_dispatch connectorEx 0 "GET" "/leads"
      { headers := [], json := none, params := none } respRefresh200 resp401
      (Or.inl rfl)).1 (by decide)
  · exact (request_status_dispatch connectorEx 0 "GET" "/leads"
      { headers := [], json := none, params := none } respRefresh200 resp204
      (Or.inl rfl)).2.1 rfl
  · exact (request_status_dispatch connectorEx 0 "GET" "/leads"
      { headers := [], json := none, params := none } respRefresh200 respLeads200
      (Or.inl rfl)).2.2 (by decide) (by decide)

/-- C3: `refresh_access_token` raises `AmoCRMError` (with status and body
text) iff the token-endpoint status is not exactly 200; on a 200 response it
replaces the held token with the payload's `access_token`, the payload's
`refresh_token` when present else the old one, and expiry `now` plus the
payload's `expires_in` (defaulting to 900 when absent). -/
theorem refresh_access_token_spec (c : AmoCRMConnector) (now : Int) (resp : Response)
    (fs : List (String × JVal)) (a rt : String) (ei : Int) :
    ((∃ e, (c.refresh_access_token now resp).1 = .error e ∧ e.kind = "AmoCRMError") ↔
      resp.status_code ≠ 200) ∧
    (resp.status_code = 200 → resp.json = .obj fs →
      lookupField fs "access_token" = some (.str a) →
      (lookupField fs "refresh_token").getD (.str c.token.refresh_token) = .str rt →
      (lookupField fs "expires_in").getD (.num 900) = .num ei →
      c.refresh_access_token now resp =
        (.ok (), { c with token := { access_token := a, refresh_token := rt
                                   , expires_at := now + ei } })) := by
  constructor
  · constructor
    · rintro ⟨e, he, hk⟩
      intro h200
      simp only [AmoCRMConnector.refresh_access_token, h200, ne_eq, not_true_eq_false,
        if_false] at he
      split at he
      · rename_i e1 heq
        injection he with he'
        rcases getItem_error_kind _ _ _ heq with h' | h' <;>
          (rw [he'] at h'; exact absurd (h'.symm.trans hk) (by decide))
      · split at he
        · rename_i e1 heq
          injection he with he'
          have h' := dictGet_error_kind _ _ _ _ heq
          rw [he'] at h'
          exact absurd (h'.symm.trans hk) (by decide)
        · split at he
          · rename_i e1 heq
            injection he with he'
            have h' := dictGet_error_kind _ _ _ _ heq
            rw [he'] at h'
            exact absurd (h'.symm.trans hk) (by decide)
          · split at he
            · simp at he
            · injection he with he'
              rw [← he'] at hk
              exact absurd hk (by decide)
    · intro hne
      refine ⟨{ kind := "AmoCRMError"
              , msg := "Failed to refresh token: " ++ toString resp.status_code ++ " " ++ resp.text },
        ?_, rfl⟩
      simp [AmoCRMConnector.refresh_access_token, hne]
  · intro h200 hp ha hr he'
    simp [AmoCRMConnector.refresh_access_token, h200, hp, JVal.getItem, ha,
      JVal.dictGet, hr, he', JVal.pyStr]

/-- The field list of `respRefresh200`'s payload. -/
def fsRefresh : List (String × JVal) :=
  [ ("access_token", .str "new_access")
  , ("refresh_token", .str "new_refresh")
  , ("expires_in", .num 1800) ]

/-- Witness for C3 at the unit tests' refresh response: new token pair stored,
expiry 5000 + 1800. -/
theorem refresh_access_token_spec_witness :
    respRefresh200.status_code = 200 ∧
    connectorEx.refresh_access_token 5000 respRefresh200 =
      (.ok (), { connectorEx with token := { access_token := "new_access"
                                           , refresh_token := "new_refresh"
                                           , expires_at := 6800 } }) :=
  ⟨rfl, (refresh_access_token_spec connectorEx 5000 respRefresh200 fsRefresh
    "new_access" "new_refresh" 1800).2 rfl rfl rfl rfl rfl⟩

/-- The headers carried by the resource call of a trace, if any. -/
def requestHeaders : List SessionCall → Option (List (String × String))
  | [] => none
  | .request _ _ h _ _ _ :: _ => some h
  | .post _ _ _ :: rest => requestHeaders rest

/-- C6: the headers handed to the transport carry
`Authorization: Bearer <access token held at call time>` and
`Content-Type: application/json`, the two fixed headers winning any key
collision with caller-supplied headers, which are otherwise passed through. -/
theorem auth_headers_override (c : AmoCRMConnector) (now : Int) (method path : String)
    (kw : RequestKwargs) (rR aR : Response) (hs' : List (String × String)) (k : String)
    (hsome : requestHeaders (c.request_ now method path kw rR aR).2.2 = some hs') :
    hlookup hs' "Content-Type" = some "application/json" ∧
    (k ≠ "Authorization" → k ≠ "Content-Type" → hlookup hs' k = hlookup kw.headers k) ∧
    (c.token.is_expired now = false →
      hlookup hs' "Authorization" = some ("Bearer " ++ c.token.access_token)) ∧
    (c.token.is_expired now = true →
      hlookup hs' "Authorization" =
        some ("Bearer " ++ (c.refresh_access_token now rR).2.token.access_token)) := by
  by_cases hexp : c.token.is_expired now = true
  · rcases hres : (c.refresh_access_token now rR).1 with e | u
    · rw [request_expired_refresh_err c now method path kw rR aR e hexp hres] at hsome
      simp [requestHeaders] at hsome
    · cases u
      rw [request_trace_expired_ok c now method path kw rR aR hexp hres] at hsome
      simp only [requestHeaders, Option.some.injEq] at hsome
      subst hsome
      refine ⟨hlookup_setHeader_same _ _ _, ?_, ?_, ?_⟩
      · intro h1 h2
        rw [hlookup_setHeader_other _ _ _ _ (fun e => h2 e.symm),
          hlookup_setHeader_other _ _ _ _ (fun e => h1 e.symm)]
      · intro hfalse
        rw [hfalse] at hexp
        exact absurd hexp (by simp)
      · intro _
        rw [hlookup_setHeader_other _ _ _ _ (by decide), hlookup_setHeader_same]
  · have hexp' : c.token.is_expired now = false := by simpa using hexp
    rw [request_trace_not_expired c now method path kw rR aR hexp'] at hsome
    simp only [requestHeaders, Option.some.injEq] at hsome
    subst hsome
    refine ⟨hlookup_setHeader_same _ _ _, ?_, ?_, ?_⟩
    · intro h1 h2
      rw [hlookup_setHeader_other _ _ _ _ (fun e => h2 e.symm),
        hlookup_setHeader_other _ _ _ _ (fun e => h1 e.symm)]
    · intro _
      rw [hlookup_setHeader_other _ _ _ _ (by decide), hlookup_setHeader_same]
    · intro htrue
      rw [htrue] at hexp'
      exact absurd hexp' (by simp)

/-- Caller-supplied kwargs with a colliding Authorization header. -/
def kwEx : RequestKwargs :=
  { headers := [("Authorization", "caller"), ("X-Trace", "1")], json := none, params := none }

/-- The headers the transport receives for `kwEx` with the fixture token. -/
def hsEx : List (String × String) :=
  [("Authorization", "Bearer old_token"), ("X-Trace", "1"), ("Content-Type", "application/json")]

/-- Witness for C6: the fixed headers overwrote the caller's Authorization,
the unrelated X-Trace header passed through. -/
theorem auth_headers_override_witness :
    requestHeaders ((connectorEx.request_ 0 "GET" "/leads" kwEx respRefresh200 respLeads200).2.2) =
      some hsEx ∧
    hlookup hsEx "Content-Type" = some "application/json" ∧
    hlookup hsEx "X-Trace" = hlookup kwEx.headers "X-Trace" ∧
    hlookup hsEx "Authorization" = some "Bearer old_token" := by
  have h := auth_headers_override connectorEx 0 "GET" "/leads" kwEx respRefresh200 respLeads200
    hsEx "X-Trace" rfl
  exact ⟨rfl, h.1, h.2.1 (by decide) (by decide), h.2.2.1 rfl⟩

/-- C7: `get_leads` issues a GET to `/leads` with query params
`{limit, page}` (and no JSON body); on a successful payload it returns
`payload["_embedded"]["leads"]`, and an absent `_embedded` or `leads` key
yields the empty list without error. -/
theorem get_leads_spec (c : AmoCRMConnector) (now : Int) (rR aR : Response)
    (limit page : Int) (fs gs : List (String × JVal)) (v : JVal)
    (hexp : c.token.is_expired now = false) :
    ((c.get_leads now rR aR limit page).2.2 =
      [SessionCall.request "GET" (c.base_url ++ "/leads")
        (setHeader (setHeader [] "Authorization" ("Bearer " ++ c.token.access_token))
          "Content-Type" "application/json") none
        (some [("limit", .num limit), ("page", .num page)]) 10]) ∧
    (aR.status_code < 400 → aR.status_code ≠ 204 → aR.json = .obj fs →
      ((lookupField fs "_embedded" = none →
         (c.get_leads now rR aR limit page).1 = .ok (.arr [])) ∧
       (lookupField fs "_embedded" = some (.obj gs) → lookupField gs "leads" = none →
         (c.get_leads now rR aR limit page).1 = .ok (.arr [])) ∧
       (lookupField fs "_embedded" = some (.obj gs) → lookupField gs "leads" = some v →
         (c.get_leads now rR aR limit page).1 = .ok v))) := by
  constructor
  · rw [get_leads_trace, request_trace_not_expired c now "GET" "/leads" _ rR aR hexp]
  · intro h400 h204 hp
    have hreq := request_ok_not_expired c now "GET" "/leads"
      { headers := [], json := none
      , params := some [("limit", .num limit), ("page", .num page)] } rR aR hexp h400 h204
    refine ⟨?_, ?_, ?_⟩
    · intro he
      simp [AmoCRMConnector.get_leads, hreq, hp, JVal.dictGet, he, lookupField]
    · intro he hl
      simp [AmoCRMConnector.get_leads, hreq, hp, JVal.dictGet, he, hl]
    · intro he hl
      simp [AmoCRMConnector.get_leads, hreq, hp, JVal.dictGet, he, hl]

/-- The embedded-leads payload fields of `respLeads200`. -/
def gsLeads : List (String × JVal) :=
  [("leads", .arr [.obj [("id", .num 1), ("name", .str "Lead #1")]])]

/-- Witness for C7 at the test scenario: `getLeads(limit=10, page=2)` against
a 200 response with one embedded lead. -/
theorem get_leads_spec_witness :
    tokenEx.is_expired 0 = false ∧
    (connectorEx.get_leads 0 respRefresh200 respLeads200 10 2).1 =
      .ok (.arr [.obj [("id", .num 1), ("name", .str "Lead #1")]]) ∧
    (connectorEx.get_leads 0 respRefresh200 respLeads200 10 2).2.2 =
      [SessionCall.request "GET" "https://example.amocrm.ru/api/v4/leads"
        [("Authorization", "Bearer old_token"), ("Content-Type", "application/json")] none
        (some [("limit", .num 10), ("page", .num 2)]) 10] := by
  have h := get_leads_spec connectorEx 0 respRefresh200 respLeads200 10 2
    [("_embedded", .obj gsLeads)] gsLeads
    (.arr [.obj [("id", .num 1), ("name", .str "Lead #1")]]) rfl
  exact ⟨rfl, (h.2 (by decide) (by decide) rfl).2.2 rfl rfl, h.1⟩

/-- C8: `create_contact` issues a POST to `/contacts` whose JSON body is the
single-element list `[{name}]`; an empty or absent
`payload["_embedded"]["contacts"]` raises
`AmoCRMError("Contact creation returned empty payload")`, otherwise the
first element is returned. -/
theorem create_contact_spec (c : AmoCRMConnector) (now : Int) (rR aR : Response)
    (name : String) (fs gs : List (String × JVal)) (x : JVal) (xs : List JVal)
    (hexp : c.token.is_expired now = false) :
    ((c.create_contact now rR aR name).2.2 =
      [SessionCall.request "POST" (c.base_url ++ "/contacts")
        (setHeader (setHeader [] "Authorization" ("Bearer " ++ c.token.access_token))
          "Content-Type" "application/json")
        (some (.arr [.obj [("name", .str name)]])) none 10]) ∧
    (aR.status_code < 400 → aR.status_code ≠ 204 → aR.json = .obj fs →
      ((lookupField fs "_embedded" = none →
         (c.create_contact now rR aR name).1 =
           .error { kind := "AmoCRMError", msg := "Contact creation returned empty payload" }) ∧
       (lookupField fs "_embedded" = some (.obj gs) → lookupField gs "contacts" = none →
         (c.create_contact now rR aR name).1 =
           .error { kind := "AmoCRMError", msg := "Contact creation returned empty payload" }) ∧
       (lookupField fs "_embedded" = some (.obj gs) →
         lookupField gs "contacts" = some (.arr []) →
         (c.create_contact now rR aR name).1 =
           .error { kind := "AmoCRMError", msg := "Contact creation returned empty payload" }) ∧
       (lookupField fs "_embedded" = some (.obj gs) →
         lookupField gs "contacts" = some (.arr (x :: xs)) →
         (c.create_contact now rR aR name).1 = .ok x))) := by
  constructor
  · rw [create_contact_trace, request_trace_not_expired c now "POST" "/contacts" _ rR aR hexp]
  · intro h400 h204 hp
    have hreq := request_ok_not_expired c now "POST" "/contacts"
      { headers := [], json := some (.arr [.obj [("name", .str name)]])
      , params := none } rR aR hexp h400 h204
    refine ⟨?_, ?_, ?_, ?_⟩
    · intro he
      simp [AmoCRMConnector.create_contact, hreq, hp, JVal.dictGet, he, lookupField,
        JVal.isFalsy]
    · intro he hl
      simp [AmoCRMConnector.create_contact, hreq, hp, JVal.dictGet, he, hl, JVal.isFalsy]
    · intro he hl
      simp [AmoCRMConnector.create_contact, hreq, hp, JVal.dictGet, he, hl, JVal.isFalsy]
    · intro he hl
      simp [AmoCRMConnector.create_contact, hreq, hp, JVal.dictGet, he, hl, JVal.isFalsy,
        JVal.pyIndexZero]

/-- A 200 `/contacts` response whose embedded contacts list is empty. -/
def respContactsEmpty : Response :=
  { status_code := 200
  , payload := some (.obj [("_embedded", .obj [("contacts", .arr [])])])
  , text := "c0" }

/-- A 200 `/contacts` response with one created contact. -/
def respContactsOne : Response :=
  { status_code := 200
  , payload := some (.obj [("_embedded",
      .obj [("contacts", .arr [.obj [("id", .num 7), ("name", .str "Jane")]])])])
  , text := "c1" }

/-- Witness for C8: an empty contacts list raises the fixed message, a
singleton list yields its element. -/
theorem create_contact_spec_witness :
    tokenEx.is_expired 0 = false ∧
    (connectorEx.create_contact 0 respRefresh200 respContactsEmpty "Jane").1 =
      .error { kind := "AmoCRMError", msg := "Contact creation returned empty payload" } ∧
    (connectorEx.create_contact 0 respRefresh200 respContactsOne "Jane").1 =
      .ok (.obj [("id", .num 7), ("name", .str "Jane")]) := by
  have h0 := create_contact_spec connectorEx 0 respRefresh200 respContactsEmpty "Jane"
    [("_embedded", .obj [("contacts", .arr [])])] [("contacts", .arr [])]
    (.obj []) [] rfl
  have h1 := create_contact_spec connectorEx 0 respRefresh200 respContactsOne "Jane"
    [("_embedded", .obj [("contacts", .arr [.obj [("id", .num 7), ("name", .str "Jane")]])])]
    [("contacts", .arr [.obj [("id", .num 7), ("name", .str "Jane")]])]
    (.obj [("id", .num 7), ("name", .str "Jane")]) [] rfl
  exact ⟨rfl, (h0.2 (by decide) (by decide) rfl).2.2.1 rfl rfl,
    (h1.2 (by decide) (by decide) rfl).2.2.2 rfl rfl⟩
